import Mathlib

/-!
Verification development for the piglot repository (parameter identification
toolbox).  We give a shallow embedding of the three source files:

* `src/piglot/solver/__init__.py` — the solver registry and `read_solver`;
* `src/piglot/utils/surrogate.py` — `get_model`, building a GP regression model;
* `src/piglot/bin/piglot.py` — the `main` driver, modelled as the trace of
  filesystem and objective-evaluation effects it performs.

Python dictionaries are modelled as association lists of string keys; Python
exceptions become an `error` constructor carrying the exception message.
-/

namespace Piglot

/-- A value stored in a configuration dictionary.  The source manipulates
YAML-parsed values; only strings, integers and booleans matter for the
behaviour verified here. -/
inductive ConfigVal where
  | str (s : String)
  | num (n : Int)
  | boolVal (b : Bool)
  deriving DecidableEq, Repr

/-- A configuration dictionary: an association list of string keys.  Python
dictionaries have unique keys; none of the theorems below needs that
assumption. -/
abbrev Config := List (String × ConfigVal)

/-- Membership-and-lookup of a key, as Python's `config[k]` / `k in config`:
the first binding of `k` wins. -/
def lookupKey (config : Config) (k : String) : Option ConfigVal :=
  match config with
  | [] => none
  | kv :: rest => if kv.1 = k then some kv.2 else lookupKey rest k

/-- Removal of a key, as the mutation performed by Python's `config.pop(k)`. -/
def eraseKey (config : Config) (k : String) : Config :=
  match config with
  | [] => []
  | kv :: rest => if kv.1 = k then eraseKey rest k else kv :: eraseKey rest k

/-- How a value renders inside a Python f-string, used to model
`f"Unknown solver \x7bname\x7d."`. -/
def ConfigVal.fstr : ConfigVal → String
  | .str s => s
  | .num n => toString n
  | .boolVal b => if b then "True" else "False"

/-- The solver registry `AVAILABLE_SOLVERS` of `piglot/solver/__init__.py`,
modelled by its key set (the single backend name `links`).  The factory class
each key maps to lives outside `src/` and is represented by the `delegate`
outcome below. -/
def AVAILABLE_SOLVERS : List String := ["links"]

/-- Python's `name in AVAILABLE_SOLVERS`: dictionary keys are strings, so a
non-string name is never a member. -/
def registryHasName : ConfigVal → Bool
  | .str s => AVAILABLE_SOLVERS.contains s
  | _ => false

/-- Outcome of `read_solver`: either a raised exception (with its message), or
delegation to `AVAILABLE_SOLVERS[name].read(config, parameters, output_dir)`,
recorded with the exact arguments handed to that backend factory.  `P` is the
type of the (pass-through) `parameters` argument. -/
inductive ReadSolverOutcome (P : Type) where
  | error (msg : String)
  | delegate (solverName : String) (config : Config) (parameters : P) (output_dir : String)
  deriving DecidableEq

/-- Whether a backend factory was invoked. -/
def ReadSolverOutcome.isDelegate {P : Type} : ReadSolverOutcome P → Bool
  | .delegate .. => true
  | .error _ => false

/-- `read_solver` from `piglot/solver/__init__.py`.  It pops `name` from the
configuration dictionary, raises on a missing or unknown name, and otherwise
delegates to the registered backend factory.  The second component of the
result is the caller's dictionary after the call (Python mutates it in
place). -/
def read_solver {P : Type} (config : Config) (parameters : P) (output_dir : String) :
    ReadSolverOutcome P × Config :=
  match lookupKey config "name" with
  | none => (ReadSolverOutcome.error "Missing name for solver.", config)
  | some nameVal =>
    let config2 := eraseKey config "name"
    if registryHasName nameVal then
      (ReadSolverOutcome.delegate nameVal.fstr config2 parameters output_dir, config2)
    else
      (ReadSolverOutcome.error ("Unknown solver '" ++ nameVal.fstr ++ "'."), config2)

theorem lookupKey_eraseKey_self (config : Config) (k : String) :
    lookupKey (eraseKey config k) k = none := by
  induction config with
  | nil => rfl
  | cons kv rest ih =>
    by_cases h : kv.1 = k
    · simp [eraseKey, h, ih]
    · simp [eraseKey, lookupKey, h, ih]

theorem lookupKey_eraseKey_ne (config : Config) (k k' : String) (h : k' ≠ k) :
    lookupKey (eraseKey config k) k' = lookupKey config k' := by
  induction config with
  | nil => rfl
  | cons kv rest ih =>
    by_cases hk : kv.1 = k
    · have hne : k ≠ k' := Ne.symm h
      simp [eraseKey, lookupKey, hk, hne, ih]
    · simp [eraseKey, lookupKey, hk, ih]

/-- The botorch `Normalize` input transform, as constructed in
`piglot/utils/surrogate.py` (only its dimension argument is set there). -/
structure Normalize where
  d : Nat
  deriving DecidableEq, Repr

/-- The botorch `Standardize` outcome transform (only its output-count
argument is set there). -/
structure Standardize where
  m : Nat
  deriving DecidableEq, Repr

/-- The model returned by `get_model`: either a botorch `SingleTaskGP`
(noise-inferring) or a `FixedNoiseGP` (per-point observation variances),
recorded with its training tensors and the transforms attached at
construction.  The subsequent hyperparameter fit by
`fit_gpytorch_mll` (external library code) mutates kernel hyperparameters
only; the structural content modelled here is unchanged by it. -/
inductive GPModel where
  | singleTask (train_x : List (List ℚ)) (train_y : List (List ℚ))
      (input_transform : Normalize) (outcome_transform : Standardize)
  | fixedNoise (train_x : List (List ℚ)) (train_y : List (List ℚ))
      (train_yvar : List (List ℚ))
      (input_transform : Normalize) (outcome_transform : Standardize)
  deriving DecidableEq

/-- `tensor(v).unsqueeze(1)`: a flat vector becomes an n-by-1 column. -/
def unsqueeze1 (v : List ℚ) : List (List ℚ) := v.map (fun q => [q])

/-- `torch.zeros_like(y)`. -/
def zeros_like (y : List (List ℚ)) : List (List ℚ) :=
  y.map (fun row => row.map (fun _ => (0 : ℚ)))

/-- `get_model` from `piglot/utils/surrogate.py`.  `x_data` is a list of input
rows, `y_data` the outcome vector, `var_data` the optional per-point
observation variances (`None` in Python is `none`), and `noisy` selects a
`SingleTaskGP` over a `FixedNoiseGP`.  Both branches attach
`Normalize(d=1)` and `Standardize(m=1)`. -/
def get_model (x_data : List (List ℚ)) (y_data : List ℚ)
    (var_data : Option (List ℚ)) (noisy : Bool) : GPModel :=
  let x := x_data
  let y := unsqueeze1 y_data
  if noisy then
    GPModel.singleTask x y ⟨1⟩ ⟨1⟩
  else
    match var_data with
    | none => GPModel.fixedNoise x y (zeros_like y) ⟨1⟩ ⟨1⟩
    | some var => GPModel.fixedNoise x y (unsqueeze1 var) ⟨1⟩ ⟨1⟩

/-- Whether the model infers observation noise jointly with the fit
(`SingleTaskGP`) rather than using fixed per-point variances. -/
def GPModel.isNoiseInferring : GPModel → Bool
  | .singleTask .. => true
  | .fixedNoise .. => false

/-- The fixed observation variances a model was built with, when any. -/
def GPModel.noiseVariances : GPModel → Option (List (List ℚ))
  | .singleTask .. => none
  | .fixedNoise _ _ v _ _ => some v

/-- The `Normalize` input transform stored in the model. -/
def GPModel.inputTransform : GPModel → Normalize
  | .singleTask _ _ t _ => t
  | .fixedNoise _ _ _ t _ => t

/-- The `Standardize` outcome transform stored in the model. -/
def GPModel.outcomeTransform : GPModel → Standardize
  | .singleTask _ _ _ t => t
  | .fixedNoise _ _ _ _ t => t

/-- The dimensionality of a training-input matrix: the width of its rows. -/
def inputDim (x_data : List (List ℚ)) : Nat := (x_data.headD []).length

/-- The configuration fields of the driver that govern the effects modelled
below: the output-directory path, and the `skip_last_run` entry when the key
is present (with whatever value it holds; `none` means the key is absent). -/
structure MainConfig where
  output : String
  skip_last_run : Option ConfigVal
  deriving DecidableEq, Repr

/-- The parameter set handed to the driver, abstracted to the one operation
`main` uses on it directly: `normalise` (defined outside `src/` in
`piglot/parameter.py` and passed through unchanged). -/
structure ParameterSet where
  normalise : List ℚ → List ℚ

/-- An observable effect of the `main` driver of `piglot/bin/piglot.py`:
recursive directory removal (`shutil.rmtree`), directory creation
(`os.makedirs`), writing the resolved configuration to the file `config`
inside a directory (`safe_dump`), and an invocation of the objective at a
point. -/
inductive Event where
  | rmtree (dir : String)
  | makedirs (dir : String)
  | writeConfigCopy (dir : String)
  | evalObjective (point : List ℚ)
  deriving DecidableEq

/-- The trace of effects performed by `main`, in program order.  `dirExists`
is whether `os.path.isdir(output_dir)` holds on entry; `optimiserEvals` are
the points at which `optimiser.optimise` invokes the objective during the
search (that loop lives outside `src/`, so its evaluations are kept
abstract); `best_params` is the second component `optimise` returns.  After
the search, `main` re-runs the objective at the normalised best point
exactly when the key `skip_last_run` is NOT in the configuration. -/
def mainTrace (dirExists : Bool) (cfg : MainConfig) (params : ParameterSet)
    (optimiserEvals : List (List ℚ)) (best_params : List ℚ) : List Event :=
  (if dirExists then [Event.rmtree cfg.output] else [])
  ++ [Event.makedirs cfg.output, Event.writeConfigCopy cfg.output]
  ++ optimiserEvals.map Event.evalObjective
  ++ (if (cfg.skip_last_run).isSome then []
      else [Event.evalObjective (params.normalise best_params)])

/-- The points at which a trace invokes the objective, in order. -/
def objectiveCalls : List Event → List (List ℚ)
  | [] => []
  | Event.evalObjective v :: rest => v :: objectiveCalls rest
  | _ :: rest => objectiveCalls rest

theorem objectiveCalls_append (a b : List Event) :
    objectiveCalls (a ++ b) = objectiveCalls a ++ objectiveCalls b := by
  induction a with
  | nil => rfl
  | cons e rest ih => cases e <;> simp [objectiveCalls, ih]

theorem objectiveCalls_map_eval (vs : List (List ℚ)) :
    objectiveCalls (vs.map Event.evalObjective) = vs := by
  induction vs with
  | nil => rfl
  | cons v rest ih => simp [objectiveCalls, ih]

/-- A concrete driver configuration whose `skip_last_run` key is present and
holds the boolean `false`. -/
def cfgSkipFalse : MainConfig := ⟨"output", some (ConfigVal.boolVal false)⟩

/-- A concrete parameter set whose normalisation map is the identity. -/
def idParams : ParameterSet := ⟨fun v => v⟩

/-- Claim C1 (counterexample): with `skip_last_run` present and equal to the
boolean `false`, the claim demands the final re-evaluation to happen, yet the
driver performs no objective call at all after the search, because the code
tests only whether the key `skip_last_run` is in the configuration, never its
value. -/
theorem main_skip_false_still_skips :
    cfgSkipFalse.skip_last_run = some (ConfigVal.boolVal false)
    ∧ objectiveCalls (mainTrace false cfgSkipFalse idParams [] [(1 : ℚ) / 2]) = [] :=
  ⟨rfl, rfl⟩

/-- Claim C1 (amended): after `optimise` returns, the driver re-invokes the
objective exactly once, on the normalised best parameters, if and only if the
configuration does not contain the key `skip_last_run` at all (whatever value
the key holds when present, the re-evaluation is skipped). -/
theorem main_rerun_iff_skip_key_absent (dirExists : Bool) (cfg : MainConfig)
    (params : ParameterSet) (optimiserEvals : List (List ℚ)) (best_params : List ℚ) :
    objectiveCalls (mainTrace dirExists cfg params optimiserEvals best_params)
      = optimiserEvals ++ [params.normalise best_params]
    ↔ cfg.skip_last_run = none := by
  cases dirExists <;> cases h : cfg.skip_last_run <;>
    simp [mainTrace, objectiveCalls_append, objectiveCalls_map_eval, objectiveCalls, h]

/-- Claim C7: the driver's trace opens with (an optional removal of a stale
directory, then) the creation of the configured output directory and the
write of the resolved configuration inside it, and no objective evaluation
precedes that write. -/
theorem main_config_written_before_objective_evals (dirExists : Bool) (cfg : MainConfig)
    (params : ParameterSet) (optimiserEvals : List (List ℚ)) (best_params : List ℚ) :
    ∃ pre post,
      mainTrace dirExists cfg params optimiserEvals best_params
        = pre ++ Event.makedirs cfg.output :: Event.writeConfigCopy cfg.output :: post
      ∧ objectiveCalls pre = [] := by
  cases dirExists
  · exact ⟨[], _, rfl, rfl⟩
  · exact ⟨[Event.rmtree cfg.output], _, rfl, rfl⟩

/-- Claim C8: when the configured output directory already exists, the very
first effect of the driver is a recursive `shutil.rmtree` of that directory,
followed by its re-creation, so everything a previous run left under that
path is destroyed. -/
theorem main_removes_existing_output_dir (cfg : MainConfig) (params : ParameterSet)
    (optimiserEvals : List (List ℚ)) (best_params : List ℚ) :
    mainTrace true cfg params optimiserEvals best_params
      = Event.rmtree cfg.output :: Event.makedirs cfg.output
        :: Event.writeConfigCopy cfg.output
        :: (optimiserEvals.map Event.evalObjective
            ++ (if (cfg.skip_last_run).isSome then []
                else [Event.evalObjective (params.normalise best_params)])) := rfl

/-- Claim C2: when the configuration binds `name` to a string that is not a
key of `AVAILABLE_SOLVERS`, `read_solver` raises the configuration error
`Unknown solver '<name>'.`, whose message contains the unrecognized name as a
substring, and no backend factory is invoked. -/
theorem read_solver_unknown_name {P : Type} (config : Config) (parameters : P)
    (output_dir : String) (s : String)
    (h1 : lookupKey config "name" = some (ConfigVal.str s))
    (h2 : AVAILABLE_SOLVERS.contains s = false) :
    (read_solver config parameters output_dir).1
      = ReadSolverOutcome.error ("Unknown solver '" ++ s ++ "'.")
    ∧ (∃ pre post, "Unknown solver '" ++ s ++ "'." = pre ++ s ++ post)
    ∧ ((read_solver config parameters output_dir).1).isDelegate = false := by
  have h2' : s ∉ AVAILABLE_SOLVERS := by simpa using h2
  refine ⟨?_, ⟨"Unknown solver '", "'.", rfl⟩, ?_⟩ <;>
    simp [read_solver, h1, registryHasName, h2', ConfigVal.fstr, ReadSolverOutcome.isDelegate]

/-- A configuration naming the unregistered solver `nonexistent`. -/
def nonexistentConfig : Config := [("name", ConfigVal.str "nonexistent")]

/-- Claim C2 (witness): looking up the solver name `nonexistent` produces the
error message `Unknown solver 'nonexistent'.`. -/
theorem read_solver_unknown_name_witness :
    lookupKey nonexistentConfig "name" = some (ConfigVal.str "nonexistent")
    ∧ AVAILABLE_SOLVERS.contains "nonexistent" = false
    ∧ (read_solver nonexistentConfig () "out").1
        = ReadSolverOutcome.error ("Unknown solver '" ++ "nonexistent" ++ "'.") :=
  ⟨rfl, by decide,
    (read_solver_unknown_name nonexistentConfig () "out" "nonexistent" rfl (by decide)).1⟩

/-- Claim C6: when the configuration has no `name` key, `read_solver` raises
the configuration error `Missing name for solver.`, leaves the dictionary
untouched, and invokes no backend factory. -/
theorem read_solver_missing_name {P : Type} (config : Config) (parameters : P)
    (output_dir : String) (h : lookupKey config "name" = none) :
    read_solver config parameters output_dir
      = (ReadSolverOutcome.error "Missing name for solver.", config)
    ∧ ((read_solver config parameters output_dir).1).isDelegate = false := by
  simp [read_solver, h, ReadSolverOutcome.isDelegate]

/-- Claim C6 (witness): the empty configuration makes `read_solver` fail with
`Missing name for solver.`. -/
theorem read_solver_missing_name_witness :
    lookupKey ([] : Config) "name" = none
    ∧ read_solver ([] : Config) () "out"
        = (ReadSolverOutcome.error "Missing name for solver.", ([] : Config)) :=
  ⟨rfl, (read_solver_missing_name [] () "out" rfl).1⟩

/-- Claim C9: whenever the configuration contains a `name` key, `read_solver`
removes it from the caller's dictionary (all other keys keep their values),
and in the delegating case the backend factory receives exactly that
`name`-less dictionary. -/
theorem read_solver_pops_name {P : Type} (config : Config) (parameters : P)
    (output_dir : String) (h : (lookupKey config "name").isSome = true) :
    lookupKey (read_solver config parameters output_dir).2 "name" = none
    ∧ (∀ k, k ≠ "name" →
        lookupKey (read_solver config parameters output_dir).2 k = lookupKey config k)
    ∧ (∀ (s : String) (c : Config) (p : P) (o : String),
        (read_solver config parameters output_dir).1 = ReadSolverOutcome.delegate s c p o →
        c = eraseKey config "name") := by
  obtain ⟨v, hv⟩ := Option.isSome_iff_exists.mp h
  have hsnd : (read_solver config parameters output_dir).2 = eraseKey config "name" := by
    by_cases hr : registryHasName v <;> simp [read_solver, hv, hr]
  refine ⟨?_, ?_, ?_⟩
  · rw [hsnd]
    exact lookupKey_eraseKey_self config "name"
  · intro k hk
    rw [hsnd]
    exact lookupKey_eraseKey_ne config "name" k hk
  · intro s c p o hdel
    by_cases hr : registryHasName v <;> simp [read_solver, hv, hr] at hdel
    exact hdel.2.1.symm

/-- A configuration selecting the registered `links` backend, with one extra
key. -/
def linksConfig : Config := [("name", ConfigVal.str "links"), ("case", ConfigVal.str "file")]

/-- Claim C9 (witness): on a configuration holding a `name` key, the
dictionary coming back from `read_solver` no longer contains `name`. -/
theorem read_solver_pops_name_witness :
    (lookupKey linksConfig "name").isSome = true
    ∧ lookupKey (read_solver linksConfig () "out").2 "name" = none :=
  ⟨rfl, (read_solver_pops_name linksConfig () "out" rfl).1⟩

theorem zeros_like_unsqueeze1 (v : List ℚ) :
    zeros_like (unsqueeze1 v) = v.map (fun _ => [(0 : ℚ)]) := by
  induction v with
  | nil => rfl
  | cons q rest ih =>
    show [(0 : ℚ)] :: zeros_like (unsqueeze1 rest)
      = [(0 : ℚ)] :: rest.map (fun _ => [(0 : ℚ)])
    rw [ih]

/-- Claim C4: `get_model` builds a noise-inferring model exactly when `noisy`
is true; with `noisy` false it builds a fixed-noise model whose variances are
the supplied per-point values, or zero for every point when none are
supplied. -/
theorem get_model_two_modes (x_data : List (List ℚ)) (y_data : List ℚ) (var : List ℚ) :
    (∀ var_data, (get_model x_data y_data var_data true).isNoiseInferring = true)
    ∧ (∀ var_data, (get_model x_data y_data var_data false).isNoiseInferring = false)
    ∧ (get_model x_data y_data (some var) false).noiseVariances = some (unsqueeze1 var)
    ∧ (get_model x_data y_data none false).noiseVariances
        = some (y_data.map (fun _ => [(0 : ℚ)])) := by
  refine ⟨fun vd => rfl, fun vd => ?_, rfl, ?_⟩
  · cases vd <;> rfl
  · show some (zeros_like (unsqueeze1 y_data)) = some (y_data.map (fun _ => [(0 : ℚ)]))
    rw [zeros_like_unsqueeze1]

/-- Claim C10: with `noisy` true, `get_model` never looks at the supplied
observation variances: the model it returns is the very one built when no
variances are passed. -/
theorem get_model_noisy_ignores_variances (x_data : List (List ℚ)) (y_data : List ℚ)
    (var : List ℚ) :
    get_model x_data y_data (some var) true = get_model x_data y_data none true := rfl

/-- Claim C5 (counterexample): on a two-dimensional training set the stored
input transform has dimension 1, not the data's dimension 2 — `get_model`
hardcodes `Normalize(d=1)`, so the transform does not correspond to the
inputs for any dimensionality other than one. -/
theorem get_model_input_transform_dim_mismatch :
    inputDim [[(0 : ℚ), 0], [1, 1]] = 2
    ∧ ((get_model [[(0 : ℚ), 0], [1, 1]] [0, 1] none false).inputTransform).d = 1 :=
  ⟨rfl, rfl⟩

/-- Claim C5 (amended): for one-dimensional training inputs, every model
`get_model` returns stores a `Normalize` input transform whose dimension
matches the data and a `Standardize` outcome transform for the single
outcome column. -/
theorem get_model_transforms_one_dim (x_data : List (List ℚ)) (y_data : List ℚ)
    (var_data : Option (List ℚ)) (noisy : Bool) (h : inputDim x_data = 1) :
    (get_model x_data y_data var_data noisy).inputTransform = ⟨inputDim x_data⟩
    ∧ (get_model x_data y_data var_data noisy).outcomeTransform = ⟨1⟩ := by
  rw [h]
  cases noisy <;> cases var_data <;> exact ⟨rfl, rfl⟩

/-- Claim C5 (witness): a concrete one-dimensional training set, whose fitted
model's input transform matches the data's dimension. -/
theorem get_model_transforms_one_dim_witness :
    inputDim [[(0 : ℚ)], [1]] = 1
    ∧ (get_model [[(0 : ℚ)], [1]] [0, 1] none false).inputTransform
        = ⟨inputDim [[(0 : ℚ)], [1]]⟩ :=
  ⟨rfl, (get_model_transforms_one_dim [[(0 : ℚ)], [1]] [0, 1] none false rfl).1⟩

end Piglot
